import Mathlib

set_option maxRecDepth 10000

/-!
Verification development for a retrieval-augmented question-answering
pipeline built on a remote vector store and a text-generation service.
The repository ships two bots with the same architecture:

* a JFK-documents bot: a chunker that splits a text file into
  bounded-size passages, a concurrent bulk-ingestion pipeline, a top-1
  nearest-neighbor retriever, a single-model answer generator, and an
  interactive session loop;
* an FAQ bot: fixed FAQ records, serial ingestion, a GraphQL retriever,
  a three-model generation cascade, and an interactive session loop.

The network collaborators (vector store, generation service, console
printing) are modelled as oracles: a call site that can raise is an
`Except String` value, a call site whose failures the source catches
locally is collapsed to the `Option` the surrounding code observes.
Machine text is modelled as `List Char` in the chunker (which works
character by character) and as `String` elsewhere.
-/

namespace WeaviateBots

/-- Python str.strip default whitespace predicate, ASCII range
(space, tab, newline, carriage return, vertical tab, form feed). -/
def pyIsSpace (c : Char) : Bool :=
  c = ' ' || c = '\t' || c = '\n' || c = '\r' || c = '\x0b' || c = '\x0c'

/-- Python str.strip: drop leading and trailing whitespace. -/
def pyStrip (s : List Char) : List Char :=
  (((s.dropWhile pyIsSpace).reverse).dropWhile pyIsSpace).reverse

/-- str.strip on a String. -/
def pyStripStr (s : String) : String := String.mk (pyStrip s.data)

/-- Python str.lower on the ASCII letters used by the exit tokens. -/
def pyLowerStr (s : String) : String := String.mk (s.data.map Char.toLower)

/-- Number of non-whitespace characters of a text. -/
def nws (s : List Char) : Nat := (s.filter (fun c => !pyIsSpace c)).length

/-- Total length of a list of chunk texts. -/
def sumLen (cs : List (List Char)) : Nat := (cs.map List.length).sum

/-- Split a text into lines, each keeping its trailing newline, exactly
as Python file iteration yields them (the final line may lack one). -/
def splitLinesKeep : List Char → List (List Char)
  | [] => []
  | c :: cs =>
    if c = '\n' then [c] :: splitLinesKeep cs
    else
      match splitLinesKeep cs with
      | [] => [[c]]
      | l :: ls => (c :: l) :: ls

/-- A single-quote character, spliced into the message templates that
the source writes with quoted substrings. -/
def apos : String := (Char.ofNat 39).toString

/-- Exit check shared by both session loops: the already-stripped input
is lowercased and compared against the fixed token set. -/
def isExit (q : String) : Bool :=
  pyLowerStr q = "exit" || pyLowerStr q = "quit"

namespace Jfk

/-- Chunk budget constant of the JFK bot. -/
def CHARS_PER_CHUNK : Nat := 4000

/-- Blank-line normalization at the top of the chunker loop: a line that
strips to empty is replaced by a single newline (paragraph break). -/
def normLine (l : List Char) : List Char :=
  if pyStrip l = [] then ['\n'] else l

/-- Loop body of the chunker: walk the lines, accumulating a buffer
`curr` (list of lines) and its running character count `currLen`.  When
the next line would push the count over `N`, the buffer is sealed as a
stripped chunk — with no emptiness check — and the line starts a new
buffer.  At end of input a non-empty buffer is sealed. -/
def read_chunks_aux (N : Nat) : List (List Char) → List (List Char) → Nat → List (List Char)
  | [], curr, _ => if curr = [] then [] else [pyStrip curr.flatten]
  | l :: rest, curr, currLen =>
    if currLen + (normLine l).length > N then
      pyStrip curr.flatten :: read_chunks_aux N rest [normLine l] (normLine l).length
    else
      read_chunks_aux N rest (curr ++ [normLine l]) (currLen + (normLine l).length)

/-- The chunker of the JFK bot, parameterized by the chunk budget (the
source fixes it to `CHARS_PER_CHUNK`) and by the file text. -/
def read_chunks (N : Nat) (text : List Char) : List (List Char) :=
  read_chunks_aux N (splitLinesKeep text) [] 0

/-- A stored JFK record: the object each ingestion worker creates. -/
structure Doc where
  text : List Char
  chunk_id : String
  deriving DecidableEq

/-- Successful creates of the worker pool, in submission order.  The
outcome oracle maps a chunk index to `none` (insert succeeded) or
`some err` (the create call raised).  A raised exception is stored in
the worker future and never retrieved, so a failure leaves no trace. -/
def ingest_docs_go (outcome : Nat → Option String) : Nat → List (List Char) → List Doc
  | _, [] => []
  | i, c :: cs =>
    match outcome i with
    | none => Doc.mk c ("part2_" ++ toString i) :: ingest_docs_go outcome (i + 1) cs
    | some _ => ingest_docs_go outcome (i + 1) cs

/-- Observable result of the JFK bulk ingestion. -/
structure IngestDocsResult where
  inserted : List Doc
  failLog : List (String × String)
  deriving DecidableEq

/-- JFK bulk ingestion: every chunk is submitted to the pool as an
independent create; the `as_completed` loop only advances a progress
bar and never calls `result()`, so worker exceptions are discarded and
nothing is recorded about failures (`failLog` is always empty).  The
creates are independent, so the pool run is modelled by its observable
outcome: the successfully created objects. -/
def ingest_docs (outcome : Nat → Option String) (chunks : List (List Char)) : IngestDocsResult :=
  IngestDocsResult.mk (ingest_docs_go outcome 0 chunks) []

/-- JFK retriever: the near-text query is wrapped in try/except, the
response is unwrapped to the doc list, and the first doc is returned if
any; an exception or an empty list yields `none`. -/
def semantic_search (res : Except String (List Doc)) : Option Doc :=
  match res with
  | Except.error _ => none
  | Except.ok docs => docs.head?

/-- Grounding prompt of the JFK generator. -/
def build_prompt (user_q : String) (doc : Doc) : String :=
  "A user asked: " ++ apos ++ user_q ++ apos ++ ".\n" ++
  "Here is a passage from declassified JFK documents that might be relevant:\n" ++
  "---\n" ++ String.mk doc.text ++ "\n---\n" ++
  "Based only on the information provided in the passage, answer the user" ++
  apos ++ "s question in a concise, factual way."

/-- JFK generator: one model, one completion call inside try/except;
on success the content is stripped and returned, on any exception the
failure is logged and `none` is returned. -/
def generate_answer (complete : String → Except String String) (user_q : String) (doc : Doc) : Option String :=
  match complete (build_prompt user_q doc) with
  | Except.ok content => some (pyStripStr content)
  | Except.error _ => none

/-- Message printed when retrieval finds nothing. -/
def no_info_msg : String :=
  "Sorry, I couldn" ++ apos ++ "t find relevant info."

/-- The passage portion of the passage message: the first 300
characters of the stored text followed by a literal ellipsis. -/
def shown_passage (doc : Doc) : String :=
  String.mk (doc.text.take 300) ++ "..."

/-- Message showing the closest passage. -/
def passage_msg (doc : Doc) : String :=
  "\nClosest passage (chunk " ++ doc.chunk_id ++ "):\n" ++ shown_passage doc ++ "\n"

/-- Message showing a generated answer. -/
def bot_msg (a : String) : String := "\nBot: " ++ a ++ "\n"

/-- Message printed when generation failed. -/
def no_answer_msg : String := "\nBot: (Could not generate an answer.)\n"

/-- Collaborator handle for one JFK session: the near-text search call
(may raise), the completion call (may raise), and console printing,
where `some err` means the print raised and `none` that it succeeded.
Printing is NOT guarded by any handler in the JFK main loop. -/
structure Oracle where
  searchCall : String → Except String (List Doc)
  genCall : String → Except String String
  display : String → Option String

/-- One JFK turn after the exit check: retrieve, print the outcome,
generate, print the outcome.  Search and generation failures are
handled inside `semantic_search` and `generate_answer`; a print failure
propagates as an uncaught exception. -/
def turn (o : Oracle) (q : String) : Except String (List String) :=
  match semantic_search (o.searchCall q) with
  | none =>
    match o.display no_info_msg with
    | some e => Except.error e
    | none => Except.ok [no_info_msg]
  | some doc =>
    match o.display (passage_msg doc) with
    | some e => Except.error e
    | none =>
      match generate_answer o.genCall q doc with
      | some a =>
        match o.display (bot_msg a) with
        | some e => Except.error e
        | none => Except.ok [passage_msg doc, bot_msg a]
      | none =>
        match o.display no_answer_msg with
        | some e => Except.error e
        | none => Except.ok [passage_msg doc, no_answer_msg]

/-- The messages a JFK turn prints when no print fails. -/
def turn_outs (o : Oracle) (q : String) : List String :=
  match semantic_search (o.searchCall q) with
  | none => [no_info_msg]
  | some doc =>
    match generate_answer o.genCall q doc with
    | some a => [passage_msg doc, bot_msg a]
    | none => [passage_msg doc, no_answer_msg]

/-- Input events of the JFK loop: a line, or an end-of-input/interrupt
signal (EOFError and KeyboardInterrupt are both caught and break). -/
inductive Event where
  | line (s : String)
  | signal
  deriving DecidableEq

/-- How a JFK session run ended. -/
inductive Ending where
  | exitToken
  | signal
  | inputsExhausted
  deriving DecidableEq

/-- Events on which the JFK loop breaks out of the while loop. -/
def termEvent : Event → Bool
  | Event.signal => true
  | Event.line s => isExit (pyStripStr s)

/-- Messages of the turn an event triggers (a signal triggers none). -/
def evTurnOuts (o : Oracle) : Event → List String
  | Event.signal => []
  | Event.line s => turn_outs o (pyStripStr s)

/-- Ending determined by the suffix starting at the first terminal
event (an exhausted event list models the operator never returning). -/
def endingOf : List Event → Ending
  | [] => Ending.inputsExhausted
  | Event.signal :: _ => Ending.signal
  | Event.line _ :: _ => Ending.exitToken

/-- The JFK interactive loop over a finite event stream: input is
stripped, checked against the exit tokens, and otherwise drives a turn;
an uncaught turn exception aborts the whole session. -/
def loop (o : Oracle) : List Event → Except String (List String × Ending)
  | [] => Except.ok ([], Ending.inputsExhausted)
  | Event.signal :: _ => Except.ok ([], Ending.signal)
  | Event.line s :: rest =>
    if isExit (pyStripStr s) then Except.ok ([], Ending.exitToken)
    else
      match turn o (pyStripStr s) with
      | Except.error e => Except.error e
      | Except.ok outs =>
        match loop o rest with
        | Except.error e => Except.error e
        | Except.ok pr => Except.ok (outs ++ pr.1, pr.2)

end Jfk

namespace Faq

/-- One FAQ record. -/
structure FAQEntry where
  question : String
  answer : String
  category : String
  deriving DecidableEq

/-- The fixed FAQ corpus shipped with the bot. -/
def FAQ_DATA : List FAQEntry :=
  [FAQEntry.mk ("How do I reset my password?")
    ("Go to your account settings, click " ++ apos ++ "Reset Password" ++ apos ++
      ", and follow the instructions sent to your email.")
    ("account"),
   FAQEntry.mk ("How can I contact support?")
    ("You can contact support via the chat widget or by emailing support@example.com.")
    ("support"),
   FAQEntry.mk ("What payment methods are accepted?")
    ("We accept Visa, Mastercard, PayPal, and Apple Pay.")
    ("billing"),
   FAQEntry.mk ("How do I delete my account?")
    ("Please email support@example.com with your request to delete your account.")
    ("account"),
   FAQEntry.mk ("Can I change my subscription plan?")
    ("Yes, you can change your subscription anytime from the billing page in your dashboard.")
    ("billing")]

/-- Observable result of the FAQ serial ingestion: the successfully
created records, and the warning log with one (question, error) entry
per failed create. -/
structure IngestFaqsResult where
  inserted : List FAQEntry
  failLog : List (String × String)
  deriving DecidableEq

/-- FAQ ingestion loop body over an arbitrary record list: each create
is wrapped in try/except; a failure logs a warning naming the question
and the exception, and the loop continues with the next record. -/
def ingest_faqs_over (outcome : FAQEntry → Option String) : List FAQEntry → IngestFaqsResult
  | [] => IngestFaqsResult.mk [] []
  | f :: fs =>
    match outcome f with
    | none =>
      IngestFaqsResult.mk (f :: (ingest_faqs_over outcome fs).inserted)
        (ingest_faqs_over outcome fs).failLog
    | some e =>
      IngestFaqsResult.mk (ingest_faqs_over outcome fs).inserted
        ((f.question, e) :: (ingest_faqs_over outcome fs).failLog)

/-- The shipped FAQ ingestion, which iterates the fixed corpus. -/
def ingest_faqs (outcome : FAQEntry → Option String) : IngestFaqsResult :=
  ingest_faqs_over outcome FAQ_DATA

/-- Parsed GraphQL POST response: HTTP status and the decoded record
list (the requested certainty field is returned inside each record and
never read, so it is not modelled). -/
structure PostResp where
  status_code : Nat
  faqs : List FAQEntry
  deriving DecidableEq

/-- FAQ retriever: the POST call is NOT wrapped in try/except, so a
transport exception propagates to the caller.  A 200 response is
unwrapped to the record list and its first record is returned if any;
a non-200 response or an empty list yields `none`. -/
def semantic_search (resp : Except String PostResp) : Except String (Option FAQEntry) :=
  match resp with
  | Except.error e => Except.error e
  | Except.ok r => Except.ok (if r.status_code = 200 then r.faqs.head? else none)

/-- The fixed candidate model list of the FAQ generator. -/
def models : List String := ["gpt-4o-mini", "gpt-4o", "gpt-3.5-turbo"]

/-- Grounding prompt of the FAQ generator, built once before the
cascade loop. -/
def build_prompt (user_q : String) (faq : FAQEntry) : String :=
  "A user asked: " ++ apos ++ user_q ++ apos ++ ".\n" ++
  "The closest FAQ question is: " ++ apos ++ faq.question ++ apos ++ ".\n" ++
  "The official answer is: " ++ apos ++ faq.answer ++ apos ++ ".\n\n" ++
  "Write a concise, friendly answer for the user, referencing the official FAQ answer but in your own words."

/-- The try/except cascade over candidate models: `attempt m p` is the
whole guarded body for model `m` and prompt `p` — `some out` when the
completion call returned and `out` is its stripped content, `none` when
it raised.  The first success is returned; a failure is logged and the
next candidate is tried with the same prompt. -/
def cascade (attempt : String → String → Option String) (prompt : String) : List String → Option String
  | [] => none
  | m :: ms =>
    match attempt m prompt with
    | some out => some out
    | none => cascade attempt prompt ms

/-- FAQ generator: build the prompt once, then run the cascade.  The
candidate list is a parameter, matching the spec contract; the shipped
bot instantiates it with the fixed list `models`. -/
def generate_answer (attempt : String → String → Option String) (user_q : String)
    (faq : FAQEntry) (candidates : List String) : Option String :=
  cascade attempt (build_prompt user_q faq) candidates

/-- Message printed when retrieval finds nothing. -/
def no_faq_msg : String :=
  "Sorry, I couldn" ++ apos ++ "t find a relevant FAQ."

/-- Message showing the closest FAQ entry, question and answer in
full. -/
def closest_msg (f : FAQEntry) : String :=
  "\nClosest FAQ: " ++ f.question ++ "\nOfficial Answer: " ++ f.answer

/-- Message showing a generated answer. -/
def bot_msg (g : String) : String := "\nBot: " ++ g ++ "\n"

/-- Message printed when the cascade was exhausted. -/
def no_gen_msg : String := "\nBot: (Could not generate a custom answer.)\n"

/-- Collaborator handle for one FAQ session: the GraphQL POST (may
raise) and the per-model completion attempt of the cascade (failures
already collapsed to `none`, as the source catches them locally).
Console printing is taken as non-failing here; a print failure would
reach the same session-wide handler as any other in-turn exception. -/
structure Oracle where
  post : String → Except String PostResp
  attempt : String → String → Option String

/-- One FAQ turn after the exit check: retrieve (may raise — nothing
catches it inside the turn), then display the entry and the cascade
outcome. -/
def turn (o : Oracle) (q : String) : Except String (List String) :=
  match semantic_search (o.post q) with
  | Except.error e => Except.error e
  | Except.ok none => Except.ok [no_faq_msg]
  | Except.ok (some f) =>
    match generate_answer o.attempt q f models with
    | some g => Except.ok [closest_msg f, bot_msg g]
    | none => Except.ok [closest_msg f, no_gen_msg]

/-- Input events of the FAQ loop.  EOFError is an Exception and lands
in the session-wide handler; KeyboardInterrupt is not an Exception and
escapes uncaught. -/
inductive Event where
  | line (s : String)
  | eof
  | interrupt
  deriving DecidableEq

/-- How an FAQ session run ended: exit token; an in-turn exception
caught by the session-wide handler (which logs it and falls through to
session end); an uncaught KeyboardInterrupt; or event exhaustion. -/
inductive Ending where
  | exitToken
  | caughtError (e : String)
  | interrupted
  | inputsExhausted
  deriving DecidableEq

/-- The FAQ interactive loop over a finite event stream.  The whole
loop runs inside one try/except Exception: the first in-turn exception
is logged and ends the session; later events are never processed. -/
def loop (o : Oracle) : List Event → List String × Ending
  | [] => ([], Ending.inputsExhausted)
  | Event.eof :: _ => ([], Ending.caughtError ("EOF"))
  | Event.interrupt :: _ => ([], Ending.interrupted)
  | Event.line s :: rest =>
    if isExit (pyStripStr s) then ([], Ending.exitToken)
    else
      match turn o (pyStripStr s) with
      | Except.error e => ([], Ending.caughtError e)
      | Except.ok outs =>
        (outs ++ (loop o rest).1, (loop o rest).2)

end Faq

/-! Concrete data used by witnesses and counterexamples. -/

/-- Attempt oracle where only the third shipped candidate succeeds. -/
def attemptThird : String → String → Option String :=
  fun m _ => if m = "gpt-3.5-turbo" then some ("answer from the third model") else none

/-- A small concrete FAQ record. -/
def faq0 : Faq.FAQEntry := Faq.FAQEntry.mk ("q0") ("a0") ("c0")

/-- A small concrete stored passage. -/
def doc0 : Jfk.Doc := Jfk.Doc.mk (("JFK file passage.").data) ("part2_0")

/-- A stored passage whose text is 301 characters long, one past the
display truncation point. -/
def doc301 : Jfk.Doc := Jfk.Doc.mk (List.replicate 301 'a') ("part2_9")

/-- JFK oracle whose console printing always raises. -/
def jfkBadDisplayOracle : Jfk.Oracle :=
  Jfk.Oracle.mk (fun _ => Except.ok []) (fun _ => Except.error ("gen down"))
    (fun _ => some ("printer offline"))

/-- JFK oracle whose remote calls always raise but whose printing
succeeds. -/
def jfkDownOracle : Jfk.Oracle :=
  Jfk.Oracle.mk (fun _ => Except.error ("search down")) (fun _ => Except.error ("gen down"))
    (fun _ => none)

/-- JFK oracle that retrieves `doc0` and whose generation call always
raises, with printing succeeding. -/
def jfkC7Oracle : Jfk.Oracle :=
  Jfk.Oracle.mk (fun _ => Except.ok [doc0]) (fun _ => Except.error ("quota"))
    (fun _ => none)

/-- FAQ oracle whose POST always raises. -/
def faqBadPostOracle : Faq.Oracle :=
  Faq.Oracle.mk (fun _ => Except.error ("connection refused")) (fun _ _ => none)

/-- FAQ oracle that retrieves `faq0` with status 200 and whose every
generation attempt fails. -/
def faqC7Oracle : Faq.Oracle :=
  Faq.Oracle.mk (fun _ => Except.ok (Faq.PostResp.mk 200 [faq0])) (fun _ _ => none)

/-- Corpus whose first (and only) line is longer than the budget used
with it. -/
def oversizedText : List Char := ("abcde").data

/-! Helper lemmas on the text primitives. -/

lemma length_dropWhile_le (p : Char → Bool) (l : List Char) :
    (l.dropWhile p).length ≤ l.length := by
  induction l with
  | nil => simp [List.dropWhile]
  | cons c cs ih =>
    by_cases h : p c
    · simp only [List.dropWhile_cons, h, if_pos, List.length_cons]
      exact Nat.le_succ_of_le ih
    · simp [List.dropWhile_cons, h]

lemma pyStrip_length_le (s : List Char) : (pyStrip s).length ≤ s.length := by
  unfold pyStrip
  calc ((((s.dropWhile pyIsSpace).reverse).dropWhile pyIsSpace).reverse).length
      = (((s.dropWhile pyIsSpace).reverse).dropWhile pyIsSpace).length := by
        simp
    _ ≤ ((s.dropWhile pyIsSpace).reverse).length := length_dropWhile_le _ _
    _ = (s.dropWhile pyIsSpace).length := by simp
    _ ≤ s.length := length_dropWhile_le _ _

lemma nws_le_length (s : List Char) : nws s ≤ s.length := by
  unfold nws
  exact List.length_filter_le _ _

lemma nws_append (a b : List Char) : nws (a ++ b) = nws a + nws b := by
  unfold nws
  simp

lemma nws_dropWhile (s : List Char) : nws (s.dropWhile pyIsSpace) = nws s := by
  induction s with
  | nil => rfl
  | cons c cs ih =>
    by_cases h : pyIsSpace c
    · have h1 : (c :: cs).dropWhile pyIsSpace = cs.dropWhile pyIsSpace := by
        simp [List.dropWhile_cons, h]
      have h2 : nws (c :: cs) = nws cs := by
        unfold nws
        simp [List.filter_cons, h]
      rw [h1, ih, h2]
    · simp [List.dropWhile_cons, h]

lemma nws_reverse (s : List Char) : nws s.reverse = nws s := by
  unfold nws
  simp

lemma nws_pyStrip (s : List Char) : nws (pyStrip s) = nws s := by
  unfold pyStrip
  rw [nws_reverse, nws_dropWhile, nws_reverse, nws_dropWhile]

lemma nws_flatten (ls : List (List Char)) : nws ls.flatten = (ls.map nws).sum := by
  induction ls with
  | nil => rfl
  | cons l rest ih => simp [List.flatten_cons, nws_append, ih]

lemma splitLinesKeep_flatten (s : List Char) : (splitLinesKeep s).flatten = s := by
  induction s with
  | nil => rfl
  | cons c cs ih =>
    by_cases h : c = '\n'
    · simp [splitLinesKeep, h, ih]
    · simp only [splitLinesKeep, h, if_neg]
      cases hs : splitLinesKeep cs with
      | nil =>
        rw [hs] at ih
        simp at ih
        simp [ih, h]
      | cons l ls =>
        rw [hs] at ih
        simp at ih ⊢
        exact ih

lemma nws_normLine (l : List Char) : nws (Jfk.normLine l) = nws l := by
  unfold Jfk.normLine
  by_cases h : pyStrip l = []
  · rw [if_pos h]
    have h2 : nws l = 0 := by
      rw [← nws_pyStrip l, h]
      rfl
    rw [h2]
    rfl
  · rw [if_neg h]

lemma getD_mem_of_lt {α : Type} (l : List α) (i : Nat) (d : α) (h : i < l.length) :
    l.getD i d ∈ l := by
  induction l generalizing i with
  | nil => simp at h
  | cons a rest ih =>
    cases i with
    | zero => simp [List.getD]
    | succ j =>
      have hj : j < rest.length := by
        simp at h
        omega
      simp only [List.getD_cons_succ]
      exact List.mem_cons_of_mem _ (ih j hj)

/-! Lemmas about the generation cascade. -/

lemma cascade_eq_none_iff (attempt : String → String → Option String) (p : String) :
    ∀ ms : List String, Faq.cascade attempt p ms = none ↔ ∀ m, m ∈ ms → attempt m p = none := by
  intro ms
  induction ms with
  | nil => simp [Faq.cascade]
  | cons m rest ih =>
    constructor
    · intro h m2 hm2
      cases hm : attempt m p with
      | some out =>
        rw [Faq.cascade, hm] at h
        exact absurd h (by simp)
      | none =>
        rw [Faq.cascade, hm] at h
        rcases List.mem_cons.mp hm2 with h1 | h2
        · rw [h1]; exact hm
        · exact (ih.mp h) m2 h2
    · intro h
      have hm : attempt m p = none := h m (List.mem_cons_self m rest)
      rw [Faq.cascade, hm]
      exact ih.mpr (fun m2 hm2 => h m2 (List.mem_cons_of_mem _ hm2))

lemma cascade_first_success (attempt : String → String → Option String) (p : String) :
    ∀ (pre : List String) (m : String) (post : List String) (out : String),
      (∀ m2, m2 ∈ pre → attempt m2 p = none) → attempt m p = some out →
      Faq.cascade attempt p (pre ++ m :: post) = some out := by
  intro pre
  induction pre with
  | nil =>
    intro m post out _ hm
    simp only [List.nil_append, Faq.cascade, hm]
  | cons m0 rest ih =>
    intro m post out hpre hm
    have h0 : attempt m0 p = none := hpre m0 (List.mem_cons_self m0 rest)
    simp only [List.cons_append, Faq.cascade, h0]
    exact ih m post out (fun m2 hm2 => hpre m2 (List.mem_cons_of_mem _ hm2)) hm

/-! Claim theorems. -/

/-- Claim C1: the FAQ generator builds one grounding prompt from the
question and the retrieved entry, tries the candidate models strictly
in list order with that same prompt, returns the output of the first
candidate that succeeds without attempting later candidates (the
candidates after the first success are arbitrary and do not affect the
result), and returns `none` if and only if every candidate fails on
that prompt. -/
theorem C1_generation_cascade (attempt : String → String → Option String)
    (q : String) (faq : Faq.FAQEntry) :
    (∀ candidates : List String,
      Faq.generate_answer attempt q faq candidates = none ↔
        ∀ m, m ∈ candidates → attempt m (Faq.build_prompt q faq) = none) ∧
    (∀ (pre : List String) (m : String) (post : List String) (out : String),
      (∀ m2, m2 ∈ pre → attempt m2 (Faq.build_prompt q faq) = none) →
      attempt m (Faq.build_prompt q faq) = some out →
      Faq.generate_answer attempt q faq (pre ++ m :: post) = some out) := by
  constructor
  · intro candidates
    exact cascade_eq_none_iff attempt (Faq.build_prompt q faq) candidates
  · intro pre m post out hpre hm
    exact cascade_first_success attempt (Faq.build_prompt q faq) pre m post out hpre hm

/-- Witness for C1 at the shipped candidate list: the first two models
fail, the third succeeds, and `generate_answer` returns the third
model output. -/
theorem C1_witness :
    Faq.generate_answer attemptThird ("hello") faq0 Faq.models = some ("answer from the third model") := by
  have h := (C1_generation_cascade attemptThird ("hello") faq0).2
    (["gpt-4o-mini", "gpt-4o"]) ("gpt-3.5-turbo") ([]) ("answer from the third model")
    (by decide) (by decide)
  exact h

/-- Invariant of the chunker loop: every chunk that the loop body
emits, starting from a buffer that is either within budget or a single
oversized normalized line of the input, is itself within budget or the
strip of a single oversized normalized line of the input. -/
lemma read_chunks_aux_sound (N : Nat) (S : List (List Char)) :
    ∀ (lines curr : List (List Char)) (currLen : Nat),
      (∀ l, l ∈ lines → Jfk.normLine l ∈ S) →
      currLen = curr.flatten.length →
      (currLen ≤ N ∨ ∃ l, l ∈ S ∧ curr = [l] ∧ N < l.length) →
      ∀ c, c ∈ Jfk.read_chunks_aux N lines curr currLen →
        c.length ≤ N ∨ ∃ l, l ∈ S ∧ c = pyStrip l ∧ N < l.length := by
  intro lines
  induction lines with
  | nil =>
    intro curr currLen hmem hlen hinv c hc
    simp only [Jfk.read_chunks_aux] at hc
    by_cases hcur : curr = []
    · rw [if_pos hcur] at hc
      simp at hc
    · rw [if_neg hcur] at hc
      have hceq : c = pyStrip curr.flatten := by simpa using hc
      rcases hinv with h1 | ⟨l, hlS, hcurr, hlN⟩
      · left
        rw [hceq]
        calc (pyStrip curr.flatten).length ≤ curr.flatten.length := pyStrip_length_le _
          _ = currLen := hlen.symm
          _ ≤ N := h1
      · right
        refine ⟨l, hlS, ?_, hlN⟩
        rw [hceq, hcurr]
        simp
  | cons l0 rest ih =>
    intro curr currLen hmem hlen hinv c hc
    simp only [Jfk.read_chunks_aux] at hc
    by_cases hover : currLen + (Jfk.normLine l0).length > N
    · rw [if_pos hover] at hc
      rcases List.mem_cons.mp hc with hhead | htail
      · rcases hinv with h1 | ⟨l, hlS, hcurr, hlN⟩
        · left
          rw [hhead]
          calc (pyStrip curr.flatten).length ≤ curr.flatten.length := pyStrip_length_le _
            _ = currLen := hlen.symm
            _ ≤ N := h1
        · right
          refine ⟨l, hlS, ?_, hlN⟩
          rw [hhead, hcurr]
          simp
      · refine ih [Jfk.normLine l0] (Jfk.normLine l0).length
          (fun l hl => hmem l (List.mem_cons_of_mem _ hl)) (by simp) ?_ c htail
        by_cases hsz : (Jfk.normLine l0).length ≤ N
        · left
          exact hsz
        · right
          exact ⟨Jfk.normLine l0, hmem l0 (List.mem_cons_self _ _), rfl, by omega⟩
    · rw [if_neg hover] at hc
      refine ih (curr ++ [Jfk.normLine l0]) (currLen + (Jfk.normLine l0).length)
        (fun l hl => hmem l (List.mem_cons_of_mem _ hl)) ?_ ?_ c hc
      · rw [hlen]
        simp
      · left
        omega

/-- Claim C2: every chunk emitted by the chunker other than the last
has text length at most the budget N, with the sole exception of a
chunk that is (the strip of) a single normalized input line that is
itself longer than N, emitted whole rather than split mid-line; and
chunking the empty input yields zero chunks. -/
theorem C2_chunk_size_bound :
    (∀ (text : List Char) (N i : Nat), i + 1 < (Jfk.read_chunks N text).length →
      ((Jfk.read_chunks N text).getD i []).length ≤ N ∨
        ∃ l, l ∈ (splitLinesKeep text).map Jfk.normLine ∧
          (Jfk.read_chunks N text).getD i [] = pyStrip l ∧ N < l.length) ∧
    (∀ N : Nat, Jfk.read_chunks N [] = []) := by
  constructor
  · intro text N i hi
    have hmem : (Jfk.read_chunks N text).getD i [] ∈ Jfk.read_chunks N text :=
      getD_mem_of_lt _ _ _ (Nat.lt_of_succ_lt hi)
    unfold Jfk.read_chunks at hmem
    exact read_chunks_aux_sound N ((splitLinesKeep text).map Jfk.normLine)
      (splitLinesKeep text) [] 0
      (fun l hl => List.mem_map.mpr ⟨l, hl, rfl⟩) (by simp) (Or.inl (Nat.zero_le N))
      _ hmem
  · intro N
    rfl

/-- Witness for C2 on the input "ab\ncd" with budget 3: the chunker
yields two chunks and the first one satisfies the size disjunction. -/
theorem C2_witness :
    0 + 1 < (Jfk.read_chunks 3 (("ab\ncd").data)).length ∧
      (((Jfk.read_chunks 3 (("ab\ncd").data)).getD 0 []).length ≤ 3 ∨
        ∃ l, l ∈ (splitLinesKeep (("ab\ncd").data)).map Jfk.normLine ∧
          (Jfk.read_chunks 3 (("ab\ncd").data)).getD 0 [] = pyStrip l ∧ 3 < l.length) :=
  ⟨by decide, C2_chunk_size_bound.1 (("ab\ncd").data) 3 0 (by decide)⟩

/-- Claim C3 counterexample: chunk texts are stripped when sealed, so
whitespace at a seal boundary is lost.  On the input "ab\ncd" with
budget 3 the chunker yields the chunks "ab" and "cd" of total length 4,
strictly below the length 5 of the stripped input — the claimed
inequality fails. -/
theorem C3_counterexample :
    ¬ ((pyStrip (("ab\ncd").data)).length ≤ sumLen (Jfk.read_chunks 3 (("ab\ncd").data))) := by
  decide

/-- Invariant of the chunker loop for content accounting: the
non-whitespace content of the buffer plus that of the remaining
normalized lines is a lower bound on the total length of the emitted
chunks. -/
lemma read_chunks_aux_nws (N : Nat) :
    ∀ (lines curr : List (List Char)) (currLen : Nat),
      nws curr.flatten + ((lines.map (fun l => nws (Jfk.normLine l))).sum) ≤
        sumLen (Jfk.read_chunks_aux N lines curr currLen) := by
  intro lines
  induction lines with
  | nil =>
    intro curr currLen
    simp only [Jfk.read_chunks_aux, List.map_nil, List.sum_nil, Nat.add_zero]
    by_cases hcur : curr = []
    · rw [if_pos hcur, hcur]
      simp [sumLen, nws]
    · rw [if_neg hcur]
      have h1 := nws_pyStrip curr.flatten
      have h2 := nws_le_length (pyStrip curr.flatten)
      simp only [sumLen, List.map_cons, List.map_nil, List.sum_cons, List.sum_nil]
      omega
  | cons l0 rest ih =>
    intro curr currLen
    simp only [Jfk.read_chunks_aux, List.map_cons, List.sum_cons]
    by_cases hover : currLen + (Jfk.normLine l0).length > N
    · rw [if_pos hover]
      have hIH := ih [Jfk.normLine l0] (Jfk.normLine l0).length
      have h1 : nws (([Jfk.normLine l0] : List (List Char)).flatten) = nws (Jfk.normLine l0) := by
        simp
      rw [h1] at hIH
      have h2 := nws_pyStrip curr.flatten
      have h3 := nws_le_length (pyStrip curr.flatten)
      have h4 : sumLen (pyStrip curr.flatten ::
          Jfk.read_chunks_aux N rest [Jfk.normLine l0] (Jfk.normLine l0).length) =
          (pyStrip curr.flatten).length +
            sumLen (Jfk.read_chunks_aux N rest [Jfk.normLine l0] (Jfk.normLine l0).length) := by
        simp [sumLen]
      rw [h4]
      omega
    · rw [if_neg hover]
      have hIH := ih (curr ++ [Jfk.normLine l0]) (currLen + (Jfk.normLine l0).length)
      have h1 : nws ((curr ++ [Jfk.normLine l0]).flatten) =
          nws curr.flatten + nws (Jfk.normLine l0) := by
        simp [List.flatten_append, nws_append]
      rw [h1] at hIH
      omega

lemma sum_map_nws_normLine (ls : List (List Char)) :
    (ls.map (fun l => nws (Jfk.normLine l))).sum = (ls.map nws).sum := by
  induction ls with
  | nil => rfl
  | cons l rest ih => simp [nws_normLine, ih]

/-- Claim C3 amended: no non-whitespace content is lost under chunking
— for every input text and every budget N the total length of the
chunk texts is at least the number of non-whitespace characters of the
input.  (The originally claimed lower bound, the length of the
whitespace-stripped input, fails because whitespace at a seal boundary
is trimmed away, as the counterexample shows.) -/
theorem C3_amended_no_content_loss (text : List Char) (N : Nat) :
    nws text ≤ sumLen (Jfk.read_chunks N text) := by
  have h := read_chunks_aux_nws N (splitLinesKeep text) [] 0
  have h1 : nws (([] : List (List Char)).flatten) = 0 := rfl
  rw [h1] at h
  have h2 : ((splitLinesKeep text).map (fun l => nws (Jfk.normLine l))).sum = nws text := by
    rw [sum_map_nws_normLine, ← nws_flatten, splitLinesKeep_flatten]
  rw [h2] at h
  unfold Jfk.read_chunks
  omega

/-- Claim C10: whenever the first line of the input is, after blank-
line normalization, longer than the budget N, the loop seals the
still-empty buffer before that line, so the chunk at emission index 0
is the empty string; in particular there exists an input on which the
chunker emits an empty-text chunk. -/
theorem C10_empty_first_chunk (N : Nat) (text l : List Char) (rest : List (List Char))
    (hsplit : splitLinesKeep text = l :: rest)
    (hlong : N < (Jfk.normLine l).length) :
    (Jfk.read_chunks N text).head? = some [] := by
  unfold Jfk.read_chunks
  rw [hsplit]
  simp only [Jfk.read_chunks_aux]
  rw [if_pos (by omega : 0 + (Jfk.normLine l).length > N)]
  rfl

/-- Witness for C10: the one-line input "abcde" with budget 3 makes the
chunker emit the empty string as its first chunk. -/
theorem C10_witness : (Jfk.read_chunks 3 oversizedText).head? = some [] :=
  C10_empty_first_chunk 3 oversizedText (("abcde").data) [] (by decide) (by decide)

/-! Lemmas about ingestion. -/

/-- A chunk whose own insert succeeds is created by its worker no
matter what happens to any other chunk. -/
lemma ingest_docs_go_mem (outcome : Nat → Option String) :
    ∀ (chunks : List (List Char)) (i j : Nat), j < chunks.length → outcome (i + j) = none →
      Jfk.Doc.mk (chunks.getD j []) ("part2_" ++ toString (i + j)) ∈
        Jfk.ingest_docs_go outcome i chunks := by
  intro chunks
  induction chunks with
  | nil =>
    intro i j hj _
    simp at hj
  | cons c cs ih =>
    intro i j hj hout
    cases j with
    | zero =>
      rw [Nat.add_zero] at hout ⊢
      simp only [Jfk.ingest_docs_go, hout]
      simp [List.getD]
    | succ j2 =>
      have hrec : Jfk.Doc.mk (cs.getD j2 []) ("part2_" ++ toString ((i + 1) + j2)) ∈
          Jfk.ingest_docs_go outcome (i + 1) cs := by
        refine ih (i + 1) j2 ?_ ?_
        · simp at hj
          omega
        · rw [show (i + 1) + j2 = i + (j2 + 1) from by omega]
          exact hout
      rw [show i + (j2 + 1) = (i + 1) + j2 from by omega]
      simp only [List.getD_cons_succ]
      cases houti : outcome i with
      | none =>
        simp only [Jfk.ingest_docs_go, houti]
        exact List.mem_cons_of_mem _ hrec
      | some e =>
        simp only [Jfk.ingest_docs_go, houti]
        exact hrec

/-- The FAQ ingestion inserts exactly the records whose create
succeeds, in order. -/
lemma ingest_faqs_over_inserted (outcome : Faq.FAQEntry → Option String) :
    ∀ faqs : List Faq.FAQEntry,
      (Faq.ingest_faqs_over outcome faqs).inserted =
        faqs.filter (fun f => (outcome f).isNone) := by
  intro faqs
  induction faqs with
  | nil => rfl
  | cons f fs ih =>
    cases hout : outcome f with
    | none => simp [Faq.ingest_faqs_over, hout, List.filter_cons, ih]
    | some e => simp [Faq.ingest_faqs_over, hout, List.filter_cons, ih]

/-- The FAQ ingestion warning log holds exactly one (question, error)
entry per failed create, in order. -/
lemma ingest_faqs_over_failLog (outcome : Faq.FAQEntry → Option String) :
    ∀ faqs : List Faq.FAQEntry,
      (Faq.ingest_faqs_over outcome faqs).failLog =
        faqs.filterMap (fun f => (outcome f).map (fun e => (f.question, e))) := by
  intro faqs
  induction faqs with
  | nil => simp [Faq.ingest_faqs_over]
  | cons f fs ih =>
    cases hout : outcome f with
    | none => simp [Faq.ingest_faqs_over, hout, List.filterMap_cons, ih]
    | some e => simp [Faq.ingest_faqs_over, hout, List.filterMap_cons, ih]

/-- The questions named in the FAQ warning log form a sublist of the
ingested questions. -/
lemma ingest_faqs_over_failLog_fst_sublist (outcome : Faq.FAQEntry → Option String) :
    ∀ faqs : List Faq.FAQEntry,
      ((Faq.ingest_faqs_over outcome faqs).failLog.map Prod.fst).Sublist
        (faqs.map Faq.FAQEntry.question) := by
  intro faqs
  induction faqs with
  | nil => simp [Faq.ingest_faqs_over]
  | cons f fs ih =>
    cases hout : outcome f with
    | none =>
      simp only [Faq.ingest_faqs_over, hout, List.map_cons]
      exact List.Sublist.cons _ ih
    | some e =>
      simp only [Faq.ingest_faqs_over, hout, List.map_cons]
      exact List.Sublist.cons₂ _ ih

/-- Claim C4 counterexample: ingesting one chunk whose insert fails
should, per the claim, yield a report whose `failed` holds one
{chunk_id, error} entry; but the JFK bulk ingestion retrieves no worker
result, so its observable failure record is empty. -/
theorem C4_counterexample :
    ¬ ((Jfk.ingest_docs (fun _ => some ("boom")) [("a").data]).failLog.length = 1) := by
  decide

/-- Claim C4 amended: a failing insert of one chunk never prevents the
insertion of the remaining chunks — every chunk whose own insert
succeeds is stored, under any pattern of other failures — and the FAQ
ingestion records exactly one (question, error) log entry per failed
insert, with no question reported twice when the ingested questions are
distinct.  But no aggregate report is returned: the JFK bulk ingestion
discards worker failures entirely, recording nothing about them. -/
theorem C4_amended_ingestion :
    (∀ (outcome : Nat → Option String) (chunks : List (List Char)) (i : Nat),
      i < chunks.length → outcome i = none →
      Jfk.Doc.mk (chunks.getD i []) ("part2_" ++ toString i) ∈
        (Jfk.ingest_docs outcome chunks).inserted) ∧
    (∀ (outcome : Nat → Option String) (chunks : List (List Char)),
      (Jfk.ingest_docs outcome chunks).failLog = []) ∧
    (∀ (outcome : Faq.FAQEntry → Option String) (faqs : List Faq.FAQEntry),
      (Faq.ingest_faqs_over outcome faqs).inserted =
        faqs.filter (fun f => (outcome f).isNone) ∧
      (Faq.ingest_faqs_over outcome faqs).failLog =
        faqs.filterMap (fun f => (outcome f).map (fun e => (f.question, e))) ∧
      ((faqs.map Faq.FAQEntry.question).Nodup →
        ((Faq.ingest_faqs_over outcome faqs).failLog.map Prod.fst).Nodup)) := by
  refine ⟨?_, ?_, ?_⟩
  · intro outcome chunks i hi hout
    have h := ingest_docs_go_mem outcome chunks 0 i
      (by exact hi) (by rw [Nat.zero_add]; exact hout)
    rw [Nat.zero_add] at h
    exact h
  · intro outcome chunks
    rfl
  · intro outcome faqs
    refine ⟨ingest_faqs_over_inserted outcome faqs, ingest_faqs_over_failLog outcome faqs, ?_⟩
    intro hnd
    exact hnd.sublist (ingest_faqs_over_failLog_fst_sublist outcome faqs)

/-- Witness for C4 amended, with two chunks where the even-indexed
insert fails: the odd-indexed chunk is stored anyway. -/
theorem C4_witness :
    Jfk.Doc.mk (("b").data) ("part2_" ++ toString 1) ∈
      (Jfk.ingest_docs (fun i => if i % 2 = 0 then some ("boom") else none)
        [("a").data, ("b").data]).inserted := by
  have h := C4_amended_ingestion.1 (fun i => if i % 2 = 0 then some ("boom") else none)
    ([("a").data, ("b").data]) 1 (by decide) (by decide)
  exact h

/-- Claim C9 is violated by the code: on a corpus whose first line
exceeds the budget, the chunker emits an empty-text chunk, the
ingestion pipeline stores it verbatim, and a retrieval whose
nearest-neighbor response surfaces that stored record returns a result
whose passage text is empty. -/
theorem C9_bug_empty_passage :
    Jfk.semantic_search (Except.ok
        ((Jfk.ingest_docs (fun _ => none) (Jfk.read_chunks 3 oversizedText)).inserted.take 1)) =
      some (Jfk.Doc.mk [] ("part2_0")) := by
  decide

/-- Claim C6 counterexample: the FAQ retriever does not wrap its POST
call in any handler, so a transport exception propagates to the caller
instead of becoming an absent result. -/
theorem C6_counterexample :
    ¬ (Faq.semantic_search (Except.error ("boom")) = Except.ok none) := by
  simp [Faq.semantic_search]

/-- Claim C6 amended: the JFK retriever returns absent exactly when the
nearest-neighbor call returns zero matches or raises — in particular
retrieval against an empty store returns absent for every query — and
the FAQ retriever returns absent on zero matches and on a non-200
response; but an exception raised by the FAQ transport propagates to
the caller rather than becoming absent. -/
theorem C6_amended_absent_on_empty_or_exception :
    (∀ res : Except String (List Jfk.Doc),
      Jfk.semantic_search res = none ↔
        (res = Except.ok [] ∨ ∃ e, res = Except.error e)) ∧
    (∀ nearest : String → Except String (List Jfk.Doc),
      (∀ q, nearest q = Except.ok []) → ∀ q, Jfk.semantic_search (nearest q) = none) ∧
    (∀ r : Faq.PostResp, (r.status_code ≠ 200 ∨ r.faqs = []) →
      Faq.semantic_search (Except.ok r) = Except.ok none) := by
  refine ⟨?_, ?_, ?_⟩
  · intro res
    cases res with
    | error e =>
      constructor
      · intro _
        right
        exact ⟨e, rfl⟩
      · intro _
        rfl
    | ok docs =>
      simp [Jfk.semantic_search, List.head?_eq_none_iff]
  · intro nearest hempty q
    rw [hempty q]
    rfl
  · intro r hr
    simp only [Faq.semantic_search]
    rcases hr with h1 | h2
    · rw [if_neg h1]
    · by_cases hs : r.status_code = 200
      · rw [if_pos hs, h2]
        rfl
      · rw [if_neg hs]

/-- Witness for C6 amended: a zero-match JFK response yields absent,
and a non-200 FAQ response yields an absent result (not an error). -/
theorem C6_witness :
    Jfk.semantic_search (Except.ok ([] : List Jfk.Doc)) = none ∧
      Faq.semantic_search (Except.ok (Faq.PostResp.mk 500 [faq0])) = Except.ok none := by
  constructor
  · exact (C6_amended_absent_on_empty_or_exception.1 (Except.ok [])).mpr (Or.inl rfl)
  · exact C6_amended_absent_on_empty_or_exception.2.2 (Faq.PostResp.mk 500 [faq0])
      (Or.inl (by decide))

/-! Lemmas about the session loops. -/

/-- When printing never raises, a JFK turn returns its printed
messages. -/
lemma jfk_turn_ok_of_display (o : Jfk.Oracle) (hd : ∀ s, o.display s = none) (q : String) :
    Jfk.turn o q = Except.ok (Jfk.turn_outs o q) := by
  unfold Jfk.turn Jfk.turn_outs
  cases hsearch : Jfk.semantic_search (o.searchCall q) with
  | none => simp [hd]
  | some doc =>
    cases hgen : Jfk.generate_answer o.genCall q doc with
    | none => simp [hd, hgen]
    | some a => simp [hd, hgen]

/-- When printing never raises, the JFK loop processes exactly the
events strictly before the first terminal event (exit token or signal),
concatenates their turn outputs, and ends according to that first
terminal event. -/
lemma jfk_loop_eq_of_display (o : Jfk.Oracle) (hd : ∀ s, o.display s = none) :
    ∀ evs : List Jfk.Event,
      Jfk.loop o evs = Except.ok
        (((evs.takeWhile (fun e => !Jfk.termEvent e)).map (Jfk.evTurnOuts o)).flatten,
          Jfk.endingOf (evs.dropWhile (fun e => !Jfk.termEvent e))) := by
  intro evs
  induction evs with
  | nil => rfl
  | cons e rest ih =>
    cases e with
    | signal =>
      simp [Jfk.loop, Jfk.termEvent, List.takeWhile_cons, List.dropWhile_cons, Jfk.endingOf]
    | line s =>
      by_cases hexit : isExit (pyStripStr s)
      · simp [Jfk.loop, hexit, Jfk.termEvent, List.takeWhile_cons, List.dropWhile_cons,
          Jfk.endingOf]
      · have htermF : Jfk.termEvent (Jfk.Event.line s) = false := by
          simp [Jfk.termEvent]
          exact Bool.not_eq_true _ ▸ hexit
        simp only [Jfk.loop]
        rw [if_neg hexit, jfk_turn_ok_of_display o hd, ih]
        simp [List.takeWhile_cons, List.dropWhile_cons, htermF, Jfk.evTurnOuts]

/-- Claim C5 counterexample: in the FAQ bot a retrieval exception in
the first turn is caught by the session-wide handler, which logs it and
terminates the session — the second turn is never processed, so a
single bad turn does end the session. -/
theorem C5_counterexample :
    Faq.loop faqBadPostOracle [Faq.Event.line ("q1"), Faq.Event.line ("q2")] =
      ([], Faq.Ending.caughtError ("connection refused")) := by
  rfl

/-- Claim C5 amended: in the JFK bot, retrieval and generation
failures are caught inside the retriever and the generator, so under a
non-raising console every turn proceeds and the loop never surfaces an
exception; but a JFK print failure is uncaught (see the C8
counterexample), and in the FAQ bot any in-turn exception is caught by
a session-wide handler that logs it and terminates the session instead
of proceeding to the next turn. -/
theorem C5_amended_turn_failures :
    (∀ (o : Jfk.Oracle), (∀ s, o.display s = none) →
      ∀ evs : List Jfk.Event, (Jfk.loop o evs).isOk = true) ∧
    (∀ (o : Faq.Oracle) (s : String) (rest : List Faq.Event) (e : String),
      isExit (pyStripStr s) = false → Faq.turn o (pyStripStr s) = Except.error e →
      Faq.loop o (Faq.Event.line s :: rest) = ([], Faq.Ending.caughtError e)) := by
  constructor
  · intro o hd evs
    rw [jfk_loop_eq_of_display o hd evs]
    rfl
  · intro o s rest e hexit hturn
    simp only [Faq.loop]
    rw [if_neg (by simp [hexit]), hturn]

/-- Witness for C5 amended: with both remote calls always raising but
printing intact, a two-line JFK session completes without error; and a
raising FAQ POST on a non-exit line ends the FAQ session with the
logged error. -/
theorem C5_witness :
    (Jfk.loop jfkDownOracle [Jfk.Event.line ("a"), Jfk.Event.line ("b")]).isOk = true ∧
      Faq.loop faqBadPostOracle [Faq.Event.line ("q3")] =
        ([], Faq.Ending.caughtError ("connection refused")) := by
  constructor
  · exact C5_amended_turn_failures.1 jfkDownOracle (fun _ => rfl) _
  · exact C5_amended_turn_failures.2 faqBadPostOracle ("q3") [] ("connection refused")
      (by decide) (by rfl)

/-- Claim C7 counterexample: the JFK session does not display the
retrieved passage unaltered — the displayed text is the stored text
truncated to its first 300 characters with an appended ellipsis, which
on a 301-character passage differs from the passage itself. -/
theorem C7_counterexample :
    ¬ (Jfk.shown_passage doc301 = String.mk doc301.text) := by
  decide

/-- Claim C7 amended: in a turn where retrieval returns a passage and
the generation cascade is exhausted, the JFK session displays the
passage message — the chunk id and the first 300 characters of the
passage followed by an ellipsis, not the unaltered text — and then an
explicit could-not-generate notice, without raising; the FAQ session
displays the full FAQ question and answer and the explicit notice. -/
theorem C7_amended_fallback_display :
    (∀ (o : Jfk.Oracle) (q : String) (doc : Jfk.Doc),
      (∀ s, o.display s = none) →
      Jfk.semantic_search (o.searchCall q) = some doc →
      Jfk.generate_answer o.genCall q doc = none →
      Jfk.turn o q = Except.ok [Jfk.passage_msg doc, Jfk.no_answer_msg] ∧
        Jfk.passage_msg doc =
          "\nClosest passage (chunk " ++ doc.chunk_id ++ "):\n" ++
            (String.mk (doc.text.take 300) ++ "...") ++ "\n") ∧
    (∀ (o : Faq.Oracle) (q : String) (f : Faq.FAQEntry),
      Faq.semantic_search (o.post q) = Except.ok (some f) →
      Faq.generate_answer o.attempt q f Faq.models = none →
      Faq.turn o q = Except.ok [Faq.closest_msg f, Faq.no_gen_msg] ∧
        Faq.closest_msg f =
          "\nClosest FAQ: " ++ f.question ++ "\nOfficial Answer: " ++ f.answer) := by
  constructor
  · intro o q doc hd hsearch hgen
    constructor
    · simp only [Jfk.turn, hsearch, hgen, hd]
    · rfl
  · intro o q f hsearch hgen
    constructor
    · simp only [Faq.turn, hsearch, hgen]
    · rfl

/-- Witness for C7 amended on concrete oracles: retrieval succeeds,
every generation attempt fails, and both turns display the entry plus
the explicit notice. -/
theorem C7_witness :
    Jfk.turn jfkC7Oracle ("who") = Except.ok [Jfk.passage_msg doc0, Jfk.no_answer_msg] ∧
      Faq.turn faqC7Oracle ("how") = Except.ok [Faq.closest_msg faq0, Faq.no_gen_msg] := by
  constructor
  · exact (C7_amended_fallback_display.1 jfkC7Oracle ("who") doc0 (fun _ => rfl) rfl rfl).1
  · exact (C7_amended_fallback_display.2 faqC7Oracle ("how") faq0 rfl rfl).1

/-- Claim C8 counterexample: the non-exit line "hi" does not leave the
JFK loop in the Awaiting state when the turn's print raises — the
session aborts with the uncaught exception and the following line is
never processed. -/
theorem C8_counterexample :
    Jfk.loop jfkBadDisplayOracle [Jfk.Event.line ("hi"), Jfk.Event.line ("there")] =
        Except.error ("printer offline") ∧
      Jfk.termEvent (Jfk.Event.line ("hi")) = false := by
  constructor
  · rfl
  · decide

/-- Claim C8 amended: a line is a terminal event exactly when, after
whitespace trimming and lowercasing, it equals "exit" or "quit"; and
provided no print raises, the loop transitions Awaiting to Terminated
exactly at the first terminal event (exit line, or end-of-input or
interrupt signal), every earlier input line leaving the loop in the
Awaiting state with its turn processed.  (An uncaught in-turn print
failure also terminates the session, as the counterexample shows.) -/
theorem C8_amended_session_exit :
    (∀ (o : Jfk.Oracle), (∀ s, o.display s = none) →
      ∀ evs : List Jfk.Event,
        Jfk.loop o evs = Except.ok
          (((evs.takeWhile (fun e => !Jfk.termEvent e)).map (Jfk.evTurnOuts o)).flatten,
            Jfk.endingOf (evs.dropWhile (fun e => !Jfk.termEvent e)))) ∧
    (∀ s : String, Jfk.termEvent (Jfk.Event.line s) = true ↔
      (pyLowerStr (pyStripStr s) = "exit" ∨ pyLowerStr (pyStripStr s) = "quit")) := by
  constructor
  · intro o hd evs
    exact jfk_loop_eq_of_display o hd evs
  · intro s
    simp [Jfk.termEvent, isExit]

/-- Witness for C8 amended: the session processes the non-exit line
"hi", terminates at the case-insensitive exit token " EXIT ", and never
reaches the line after it. -/
theorem C8_witness :
    Jfk.loop jfkDownOracle
        [Jfk.Event.line ("hi"), Jfk.Event.line (" EXIT "), Jfk.Event.line ("more")] =
      Except.ok ([Jfk.no_info_msg], Jfk.Ending.exitToken) := by
  have h := C8_amended_session_exit.1 jfkDownOracle (fun _ => rfl)
    [Jfk.Event.line ("hi"), Jfk.Event.line (" EXIT "), Jfk.Event.line ("more")]
  rw [h]
  rfl

end WeaviateBots
